import Mathlib

/-!
Shallow embedding of the Agno streaming chat server (`main.py`):
an in-memory session store (Python dict from session id to message list),
session-id resolution, history append, the SSE streaming relay, and the
HTTP handlers for chat, session get/list/delete.

The Python dict is modelled as an association list with unique keys
(insertion-ordered, as CPython dicts are); `datetime.now()` timestamps are
modelled as `Nat` values supplied by the caller; the external agent's
streaming run is modelled by a `RunOutcome`: the list of chunks it yields,
and whether it completes or raises after yielding them.
-/

namespace AgnoChat

/-- A chat message as stored in `session_store`:
`{"role": role, "content": content, "timestamp": ...}`. -/
structure Message where
  role : String
  content : String
  timestamp : Nat
deriving DecidableEq, Repr

/-- `session_store: Dict[str, list]` — insertion-ordered map from session id
to message history, modelled as an association list. -/
abbrev Store := List (String × List Message)

/-- Dict membership / `store[id]` lookup (first matching key). -/
def lookupSession : Store → String → Option (List Message)
  | [], _ => none
  | (k, h) :: rest, id => if k = id then some h else lookupSession rest id

/-- `id in session_store`. -/
def hasSession (s : Store) (id : String) : Bool :=
  (lookupSession s id).isSome

/-- `session_store[id] = h`: overwrite in place if the key exists,
otherwise insert at the end (CPython dict assignment). -/
def setSession : Store → String → List Message → Store
  | [], id, h => [(id, h)]
  | (k, v) :: rest, id, h =>
      if k = id then (k, h) :: rest else (k, v) :: setSession rest id h

/-- `del session_store[id]` (removes the first matching key). -/
def eraseSession : Store → String → Store
  | [], _ => []
  | (k, v) :: rest, id => if k = id then rest else (k, v) :: eraseSession rest id

/-- A real dict has no duplicate keys; every store reachable through the
API satisfies this. -/
def keysNodup (s : Store) : Prop := (s.map Prod.fst).Nodup

instance (s : Store) : Decidable (keysNodup s) := by
  unfold keysNodup; infer_instance

/-- Python truthiness of the optional `session_id` argument:
`None` and the empty string are falsy. -/
def pyTruthy : Option String → Bool
  | none => false
  | some s => s != ""

/-- `get_or_create_session_id(session_id)`. `freshId` stands for the
`str(uuid.uuid4())` that the function would generate. Returns the resolved
id and the (possibly extended) store. -/
def get_or_create_session_id (store : Store) (session_id : Option String)
    (freshId : String) : String × Store :=
  if pyTruthy session_id && hasSession store (session_id.getD "") then
    (session_id.getD "", store)
  else
    let new_session_id := if pyTruthy session_id then session_id.getD "" else freshId
    if hasSession store new_session_id then
      (new_session_id, store)
    else
      (new_session_id, setSession store new_session_id [])

/-- `add_to_session_history(session_id, role, content)`; `ts` stands for
`datetime.now().isoformat()` at the time of the call. -/
def add_to_session_history (store : Store) (session_id role content : String)
    (ts : Nat) : Store :=
  setSession store session_id
    ((lookupSession store session_id).getD [] ++ [⟨role, content, ts⟩])

/-- `GET /session/{session_id}`: the history, or HTTP 404. -/
def get_session (store : Store) (session_id : String) : Except Nat (List Message) :=
  match lookupSession store session_id with
  | some h => .ok h
  | none => .error 404

/-- `DELETE /session/{session_id}`: returns the response (HTTP 404 or the
success message) together with the store after the call. -/
def delete_session (store : Store) (session_id : String) :
    Except Nat String × Store :=
  if hasSession store session_id then
    (.ok ("Session " ++ session_id ++ " deleted successfully"), eraseSession store session_id)
  else
    (.error 404, store)

/-- One summary row of `GET /sessions`. -/
structure SessionSummary where
  session_id : String
  message_count : Nat
  last_message : Option Nat
deriving DecidableEq, Repr

/-- `GET /sessions` (pure read: does not touch the store). -/
def list_sessions (store : Store) : List SessionSummary :=
  store.map (fun p =>
    ⟨p.1, p.2.length, (p.2.getLast?).map Message.timestamp⟩)

/-- One chunk yielded by `agent.run(message, stream=True)`:
either an object with a `content` attribute (possibly `None`),
a plain string, or something with neither. -/
inductive Chunk where
  | obj (content : Option String)
  | str (s : String)
  | other
deriving DecidableEq, Repr

/-- The content-extraction branch of the relay loop:
`content = str(chunk.content)` when the attribute exists and is not `None`,
`content = chunk` for a plain string, else the empty string. -/
def extractContent : Chunk → String
  | .obj (some c) => c
  | .obj none => ""
  | .str s => s
  | .other => ""

/-- The fragments the loop streams: the extracted contents of the yielded
chunks, keeping only the non-empty ones (`if content:`). -/
def chunkFragments (chunks : List Chunk) : List String :=
  (chunks.map extractContent).filter (fun c => c != "")

/-- How one invocation of the agent's streaming generator behaves:
it yields `chunks` and then either completes normally or raises an
exception rendered as `err` (`str(e)`). -/
inductive RunOutcome where
  | success (chunks : List Chunk)
  | failure (chunks : List Chunk) (err : String)
deriving DecidableEq, Repr

/-- One SSE frame emitted by the relay, by its `type` tag and payload. -/
inductive Event where
  | start (session_id : String)
  | token (content : String)
  | done (session_id : String)
  | error (err : String)
deriving DecidableEq, Repr

/-- `stream_agent_response(agent, message, session_id)`:
the emitted event sequence and the store after the generator finishes.
`tUser` and `tAsst` are the timestamps of the two potential history appends. -/
def stream_agent_response (store : Store) (message session_id : String)
    (outcome : RunOutcome) (tUser tAsst : Nat) : List Event × Store :=
  let store1 := add_to_session_history store session_id "user" message tUser
  match outcome with
  | .success chunks =>
      let frags := chunkFragments chunks
      let full_response_text := String.join frags
      let store2 :=
        if full_response_text = "" then store1
        else add_to_session_history store1 session_id "assistant" full_response_text tAsst
      (Event.start session_id :: frags.map Event.token ++ [Event.done session_id], store2)
  | .failure chunks err =>
      let frags := chunkFragments chunks
      (Event.start session_id :: frags.map Event.token ++ [Event.error err], store1)

/-- Result of `POST /chat`: an HTTP error raised before streaming, or the
streaming response (resolved session id, emitted events, final store). -/
inductive ChatResult where
  | httpError (status : Nat) (store : Store)
  | streaming (session_id : String) (events : List Event) (store : Store)
deriving DecidableEq, Repr

/-- `chat_stream(request)`. `hasGroqKey` models `os.getenv("GROQ_API_KEY")`
being set; `agentCreationFails` models `create_research_agent` raising. -/
def chat_stream (store : Store) (message : String) (session_id : Option String)
    (freshId : String) (hasGroqKey agentCreationFails : Bool)
    (outcome : RunOutcome) (tUser tAsst : Nat) : ChatResult :=
  if !hasGroqKey then .httpError 500 store
  else
    let resolved := get_or_create_session_id store session_id freshId
    if agentCreationFails then .httpError 500 resolved.2
    else
      let streamed := stream_agent_response resolved.2 message resolved.1 outcome tUser tAsst
      .streaming resolved.1 streamed.1 streamed.2

/-- The fixed base instruction list of `create_research_agent`. -/
def baseInstructions : List String :=
  ["You are a helpful assistant.",
   "When asked about current information, use DuckDuckGo search.",
   "Always use the search tool for questions about news, weather, or current events.",
   "Do no Add special symbols and emojis"]

/-- Python `history[-6:]`: the last `n` elements (all of them when the list
is shorter). -/
def lastN (n : Nat) (l : List Message) : List Message :=
  l.drop (l.length - n)

/-- The loop body rendering history lines: `f"\x7bmsg['role']\x7d: \x7bmsg['content']\x7d\n"`
accumulated over the window. -/
def renderHistory (msgs : List Message) : String :=
  msgs.foldl (fun acc m => acc ++ m.role ++ ": " ++ m.content ++ "\n") ""

/-- The `instructions` list `create_research_agent(session_id)` passes to the
agent: the base rules, plus the conversation-context block when the session
has history. -/
def create_research_agent_instructions (store : Store) (session_id : String) :
    List String :=
  let history := (lookupSession store session_id).getD []
  let conversation_context :=
    if history.isEmpty then ""
    else "\n\nPrevious conversation:\n" ++ renderHistory (lastN 6 history)
  if conversation_context = "" then baseInstructions
  else baseInstructions ++ [conversation_context]

/-- The `temperature` passed to the Groq model in `create_research_agent`. -/
def agentTemperature : Nat := 0

/-- The contents of the `token` events of an emitted sequence, in order. -/
def tokenContents (events : List Event) : List String :=
  events.filterMap (fun e => match e with | .token c => some c | _ => none)

/-! ### Store lemmas -/

theorem lookupSession_setSession_self (s : Store) (id : String) (h : List Message) :
    lookupSession (setSession s id h) id = some h := by
  induction s with
  | nil => simp [setSession, lookupSession]
  | cons p rest ih =>
      obtain ⟨k, v⟩ := p
      by_cases hk : k = id
      · simp [setSession, lookupSession, hk]
      · simp [setSession, lookupSession, hk, ih]

theorem lookupSession_setSession_ne (s : Store) (id other : String)
    (h : List Message) (hne : other ≠ id) :
    lookupSession (setSession s id h) other = lookupSession s other := by
  induction s with
  | nil => simp [setSession, lookupSession, Ne.symm hne]
  | cons p rest ih =>
      obtain ⟨k, v⟩ := p
      by_cases hk : k = id
      · subst hk
        simp [setSession, lookupSession, Ne.symm hne]
      · by_cases ho : k = other
        · subst ho
          simp [setSession, lookupSession, hk]
        · simp [setSession, lookupSession, hk, ho, ih]

theorem lookupSession_add_self (s : Store) (id r c : String) (t : Nat) :
    lookupSession (add_to_session_history s id r c t) id
      = some ((lookupSession s id).getD [] ++ [⟨r, c, t⟩]) :=
  lookupSession_setSession_self ..

theorem lookupSession_add_ne (s : Store) (id other r c : String) (t : Nat)
    (hne : other ≠ id) :
    lookupSession (add_to_session_history s id r c t) other = lookupSession s other :=
  lookupSession_setSession_ne _ _ _ _ hne

theorem lookupSession_eq_none_of_not_mem (s : Store) (id : String)
    (hmem : id ∉ s.map Prod.fst) : lookupSession s id = none := by
  induction s with
  | nil => rfl
  | cons p rest ih =>
      obtain ⟨k, v⟩ := p
      simp only [List.map_cons, List.mem_cons] at hmem
      push_neg at hmem
      simp [lookupSession, Ne.symm hmem.1, ih hmem.2]

theorem lookupSession_eraseSession_self (s : Store) (id : String)
    (hnd : keysNodup s) : lookupSession (eraseSession s id) id = none := by
  induction s with
  | nil => rfl
  | cons p rest ih =>
      obtain ⟨k, v⟩ := p
      unfold keysNodup at hnd
      simp only [List.map_cons, List.nodup_cons] at hnd
      by_cases hk : k = id
      · subst hk
        simpa [eraseSession] using lookupSession_eq_none_of_not_mem rest k hnd.1
      · simp [eraseSession, lookupSession, hk, ih hnd.2]

theorem lookupSession_eraseSession_ne (s : Store) (id other : String)
    (hne : other ≠ id) :
    lookupSession (eraseSession s id) other = lookupSession s other := by
  induction s with
  | nil => rfl
  | cons p rest ih =>
      obtain ⟨k, v⟩ := p
      by_cases hk : k = id
      · subst hk
        simp [eraseSession, lookupSession, Ne.symm hne]
      · simp [eraseSession, lookupSession, hk, ih]

theorem tokenContents_map_token (frags : List String) (rest : List Event) :
    tokenContents (frags.map Event.token ++ rest) = frags ++ tokenContents rest := by
  induction frags with
  | nil => rfl
  | cons f fs ih => simp [tokenContents, List.filterMap_cons] at ih ⊢; exact ih

/-! ### Claim theorems -/

/-- C1: every invocation of `stream_agent_response` emits exactly one
`start` event first, then zero or more `token` events, then exactly one
terminal event, which is `done` or `error`; in particular an `error`, when
present, is last and unique, and no `done` follows an `error`. -/
theorem C1_stream_event_shape (store : Store) (message session_id : String)
    (outcome : RunOutcome) (tUser tAsst : Nat) :
    ∃ (frags : List String) (term : Event),
      (stream_agent_response store message session_id outcome tUser tAsst).1
        = Event.start session_id :: frags.map Event.token ++ [term] ∧
      (term = Event.done session_id ∨ ∃ e, term = Event.error e) := by
  cases outcome with
  | success chunks =>
      exact ⟨chunkFragments chunks, Event.done session_id, rfl, Or.inl rfl⟩
  | failure chunks err =>
      exact ⟨chunkFragments chunks, Event.error err, rfl, Or.inr ⟨err, rfl⟩⟩

/-- C3: when the agent's streaming call raises after the user message was
appended, the session gains exactly the `user` entry — no assistant entry,
even if `token` events were already emitted — and every other session is
untouched. -/
theorem C3_failure_persists_only_user (store : Store)
    (message session_id err : String) (chunks : List Chunk) (tUser tAsst : Nat) :
    (stream_agent_response store message session_id (.failure chunks err) tUser tAsst).2
        = add_to_session_history store session_id "user" message tUser ∧
    lookupSession
        (stream_agent_response store message session_id (.failure chunks err) tUser tAsst).2
        session_id
      = some ((lookupSession store session_id).getD [] ++ [⟨"user", message, tUser⟩]) ∧
    ∀ other, other ≠ session_id →
      lookupSession
          (stream_agent_response store message session_id (.failure chunks err) tUser tAsst).2
          other
        = lookupSession store other := by
  refine ⟨rfl, lookupSession_add_self .., fun other hne => lookupSession_add_ne _ _ _ _ _ _ hne⟩

/-- Witness for C3 at a concrete store, with a token emitted before the
failure: only the `user` entry is persisted and the other session is
unchanged. -/
theorem C3_failure_persists_only_user_witness :
    (stream_agent_response [("s", []), ("o", [])] "hi" "s"
        (.failure [Chunk.str "x"] "boom") 1 2).2
      = add_to_session_history [("s", []), ("o", [])] "s" "user" "hi" 1 ∧
    lookupSession (stream_agent_response [("s", []), ("o", [])] "hi" "s"
        (.failure [Chunk.str "x"] "boom") 1 2).2 "s"
      = some [⟨"user", "hi", 1⟩] ∧
    lookupSession (stream_agent_response [("s", []), ("o", [])] "hi" "s"
        (.failure [Chunk.str "x"] "boom") 1 2).2 "o"
      = lookupSession [("s", []), ("o", [])] "o" := by
  have h := C3_failure_persists_only_user [("s", []), ("o", [])] "hi" "s" "boom"
    [Chunk.str "x"] 1 2
  exact ⟨h.1, h.2.1, h.2.2 "o" (by decide)⟩

/-- Counterexample to C2 as stated: a relay that completes successfully with
no token events (the agent yields nothing) emits `done` but the session
gains only one new entry (the `user` message), not two. -/
theorem C2_success_two_entries_counterexample :
    (stream_agent_response [] "hi" "s" (.success []) 0 0).1
      = [Event.start "s", Event.done "s"] ∧
    lookupSession (stream_agent_response [] "hi" "s" (.success []) 0 0).2 "s"
      = some [⟨"user", "hi", 0⟩] ∧
    ((lookupSession (stream_agent_response [] "hi" "s" (.success []) 0 0).2 "s").getD []).length
      ≠ 2 := by
  exact ⟨rfl, rfl, by decide⟩

/-- C2 as amended: on successful completion the session gains the `user`
entry, followed by an `assistant` entry carrying the concatenation of the
emitted token fragments whenever that concatenation is non-empty (so
exactly two new entries precisely when at least one token was emitted);
other sessions are untouched. -/
theorem C2_success_history (store : Store) (message session_id : String)
    (chunks : List Chunk) (tUser tAsst : Nat) :
    lookupSession
        (stream_agent_response store message session_id (.success chunks) tUser tAsst).2
        session_id
      = some ((lookupSession store session_id).getD []
          ++ ⟨"user", message, tUser⟩
            :: (if String.join (tokenContents
                    (stream_agent_response store message session_id (.success chunks) tUser tAsst).1) = ""
                then []
                else [⟨"assistant",
                       String.join (tokenContents
                         (stream_agent_response store message session_id (.success chunks) tUser tAsst).1),
                       tAsst⟩])) ∧
    ∀ other, other ≠ session_id →
      lookupSession
          (stream_agent_response store message session_id (.success chunks) tUser tAsst).2
          other
        = lookupSession store other := by
  have htok : tokenContents
      (stream_agent_response store message session_id (.success chunks) tUser tAsst).1
      = chunkFragments chunks := by
    show tokenContents (Event.start session_id
        :: (chunkFragments chunks).map Event.token ++ [Event.done session_id])
      = chunkFragments chunks
    have h1 : tokenContents (Event.start session_id
          :: (chunkFragments chunks).map Event.token ++ [Event.done session_id])
        = tokenContents ((chunkFragments chunks).map Event.token
            ++ [Event.done session_id]) := rfl
    rw [h1, tokenContents_map_token]
    simp [tokenContents]
  rw [htok]
  by_cases hfull : String.join (chunkFragments chunks) = ""
  · constructor
    · show lookupSession (if String.join (chunkFragments chunks) = "" then _ else _) session_id = _
      rw [if_pos hfull, if_pos hfull, lookupSession_add_self]
    · intro other hne
      show lookupSession (if String.join (chunkFragments chunks) = "" then _ else _) other = _
      rw [if_pos hfull, lookupSession_add_ne _ _ _ _ _ _ hne]
  · constructor
    · show lookupSession (if String.join (chunkFragments chunks) = "" then _ else _) session_id = _
      rw [if_neg hfull, if_neg hfull, lookupSession_add_self, lookupSession_add_self]
      simp
    · intro other hne
      show lookupSession (if String.join (chunkFragments chunks) = "" then _ else _) other = _
      rw [if_neg hfull, lookupSession_add_ne _ _ _ _ _ _ hne,
          lookupSession_add_ne _ _ _ _ _ _ hne]

/-- Witness for the amended C2 at a concrete store with two token
fragments: history gains `user` then `assistant` with the concatenated
text, and the other session is unchanged. -/
theorem C2_success_history_witness :
    lookupSession (stream_agent_response [("o", [])] "hi" "s"
        (.success [Chunk.obj (some "Hel"), Chunk.str "lo"]) 1 2).2 "s"
      = some [⟨"user", "hi", 1⟩, ⟨"assistant", "Hello", 2⟩] ∧
    lookupSession (stream_agent_response [("o", [])] "hi" "s"
        (.success [Chunk.obj (some "Hel"), Chunk.str "lo"]) 1 2).2 "o"
      = lookupSession [("o", [])] "o" := by
  have h := C2_success_history [("o", [])] "hi" "s"
    [Chunk.obj (some "Hel"), Chunk.str "lo"] 1 2
  exact ⟨h.1, h.2 "o" (by decide)⟩

/-- C4: `get_or_create_session_id` returns a known id unchanged without
touching the store (no reachable store maps the empty string, which Python
truthiness routes away, so `hasSession store "" = false` holds on every
store the server can build); a non-empty unknown id is returned as given
and initialized with an empty history; with no id given, the generated
fresh id is returned, mapped to an empty history, and a subsequent get on
it yields the empty history. -/
theorem C4_resolve_or_create (store : Store) (sid freshId : String) :
    (hasSession store "" = false → hasSession store sid = true →
       get_or_create_session_id store (some sid) freshId = (sid, store)) ∧
    (sid ≠ "" → hasSession store sid = false →
       get_or_create_session_id store (some sid) freshId
         = (sid, setSession store sid []) ∧
       get_session (setSession store sid []) sid = .ok []) ∧
    (hasSession store freshId = false →
       get_or_create_session_id store none freshId
         = (freshId, setSession store freshId []) ∧
       get_session (setSession store freshId []) freshId = .ok []) := by
  refine ⟨?_, ?_, ?_⟩
  · intro hek hs
    have hsne : sid ≠ "" := by
      intro e; subst e; rw [hs] at hek; exact Bool.noConfusion hek
    unfold get_or_create_session_id
    simp [pyTruthy, hsne, hs]
  · intro hsne hs
    unfold get_or_create_session_id
    simp [pyTruthy, hsne, hs, get_session, lookupSession_setSession_self]
  · intro hs
    unfold get_or_create_session_id
    simp [pyTruthy, hs, get_session, lookupSession_setSession_self]

/-- Witness for C4 on the concrete store `{"a": []}`: a known id is
returned unchanged, an unknown non-empty id and the no-id case both create
an empty session under the returned id. -/
theorem C4_resolve_or_create_witness :
    get_or_create_session_id [("a", [])] (some "a") "f" = ("a", [("a", [])]) ∧
    get_or_create_session_id [("a", [])] (some "b") "f"
      = ("b", [("a", []), ("b", [])]) ∧
    get_session [("a", []), ("b", [])] "b" = .ok [] ∧
    get_or_create_session_id [("a", [])] none "f"
      = ("f", [("a", []), ("f", [])]) ∧
    get_session [("a", []), ("f", [])] "f" = .ok [] := by
  have h1 := (C4_resolve_or_create [("a", [])] "a" "f").1 (by decide) (by decide)
  have h2 := (C4_resolve_or_create [("a", [])] "b" "f").2.1 (by decide) (by decide)
  have h3 := (C4_resolve_or_create [("a", [])] "x" "f").2.2 (by decide)
  exact ⟨h1, h2.1, h2.2, h3.1, h3.2⟩

theorem string_append_ne_empty (s t : String) (hs : s.length ≠ 0) :
    s ++ t ≠ "" := by
  intro e
  have hlen := congrArg String.length e
  rw [String.length_append] at hlen
  simp only [String.length_empty] at hlen
  omega

/-- C5: the instruction list handed to the agent is the fixed base list,
plus — only when the session has history — a single context block rendering
`history[-6:]`; that window has length `min 6 (length history)` and is the
final segment of the history (so exactly the last `min 6 n` messages, in
order). -/
theorem C5_context_window (store : Store) (session_id : String) :
    create_research_agent_instructions store session_id
      = baseInstructions ++
        (if ((lookupSession store session_id).getD []).isEmpty then []
         else ["\n\nPrevious conversation:\n"
                ++ renderHistory (lastN 6 ((lookupSession store session_id).getD []))]) ∧
    (lastN 6 ((lookupSession store session_id).getD [])).length
      = min 6 ((lookupSession store session_id).getD []).length ∧
    ((lookupSession store session_id).getD []).take
        (((lookupSession store session_id).getD []).length - 6)
      ++ lastN 6 ((lookupSession store session_id).getD [])
      = (lookupSession store session_id).getD [] := by
  refine ⟨?_, ?_, ?_⟩
  · by_cases hh : ((lookupSession store session_id).getD []).isEmpty
    · simp [create_research_agent_instructions, hh]
    · have hne := string_append_ne_empty "\n\nPrevious conversation:\n"
        (renderHistory (lastN 6 ((lookupSession store session_id).getD []))) (by decide)
      simp only [create_research_agent_instructions]
      simp [hh, hne]
  · rw [lastN, List.length_drop]
    omega
  · rw [lastN, List.take_append_drop]

/-- `toMessage` packages one `(role, content, timestamp)` append argument
as the stored message. -/
def toMessage (m : String × String × Nat) : Message := ⟨m.1, m.2.1, m.2.2⟩

/-- N successive calls to `add_to_session_history` on the same session. -/
def appendMessages (store : Store) (session_id : String)
    (msgs : List (String × String × Nat)) : Store :=
  msgs.foldl (fun s m => add_to_session_history s session_id m.1 m.2.1 m.2.2) store

theorem appendMessages_lookup_some (msgs : List (String × String × Nat)) :
    ∀ (store : Store) (session_id : String) (h : List Message),
      lookupSession store session_id = some h →
      lookupSession (appendMessages store session_id msgs) session_id
        = some (h ++ msgs.map toMessage) := by
  induction msgs with
  | nil => intro store session_id h hl; simpa [appendMessages] using hl
  | cons m rest ih =>
      intro store session_id h hl
      have h1 : lookupSession
          (add_to_session_history store session_id m.1 m.2.1 m.2.2) session_id
          = some (h ++ [toMessage m]) := by
        rw [lookupSession_add_self, hl]
        rfl
      have h2 := ih (add_to_session_history store session_id m.1 m.2.1 m.2.2)
        session_id (h ++ [toMessage m]) h1
      simpa [appendMessages, List.append_assoc] using h2

/-- C7: starting from a session with empty history, appending N messages in
sequence yields a history of length N listing exactly the appended messages
in insertion order; when the supplied timestamps are non-decreasing (as
successive `datetime.now()` readings are), so are the stored ones. -/
theorem C7_append_order_and_timestamps (store : Store) (session_id : String)
    (msgs : List (String × String × Nat))
    (hstart : lookupSession store session_id = some [])
    (hmono : List.Chain' (· ≤ ·) (msgs.map (fun m => m.2.2))) :
    lookupSession (appendMessages store session_id msgs) session_id
      = some (msgs.map toMessage) ∧
    (msgs.map toMessage).length = msgs.length ∧
    List.Chain' (· ≤ ·) ((msgs.map toMessage).map Message.timestamp) := by
  refine ⟨?_, by simp, ?_⟩
  · simpa using appendMessages_lookup_some msgs store session_id [] hstart
  · rw [List.map_map]
    exact hmono

/-- Witness for C7: two appends on a fresh empty session produce the
two-entry history in order with non-decreasing timestamps. -/
theorem C7_append_order_and_timestamps_witness :
    lookupSession
        (appendMessages [("s", [])] "s" [("user", "a", 1), ("assistant", "b", 2)]) "s"
      = some [⟨"user", "a", 1⟩, ⟨"assistant", "b", 2⟩] ∧
    List.Chain' (· ≤ ·)
      (([("user", "a", 1), ("assistant", "b", 2)].map toMessage).map Message.timestamp) := by
  have h := C7_append_order_and_timestamps [("s", [])] "s"
    [("user", "a", 1), ("assistant", "b", 2)] rfl (by simp [List.chain'_cons])
  exact ⟨h.1, h.2.2⟩

/-- `sNew` keeps every existing history as a prefix of its (possibly
extended) new value, or drops the session entirely. -/
def historyExtendsOrGone (s sNew : Store) : Prop :=
  ∀ id h, lookupSession s id = some h →
    (∃ tail, lookupSession sNew id = some (h ++ tail)) ∨
    lookupSession sNew id = none

theorem historyExtendsOrGone_refl (s : Store) : historyExtendsOrGone s s :=
  fun _ h hl => Or.inl ⟨[], by simpa using hl⟩

theorem historyExtendsOrGone_add (s : Store) (sid r c : String) (t : Nat) :
    historyExtendsOrGone s (add_to_session_history s sid r c t) := by
  intro id h hl
  by_cases hid : id = sid
  · subst hid
    refine Or.inl ⟨[⟨r, c, t⟩], ?_⟩
    rw [lookupSession_add_self, hl]
    rfl
  · exact Or.inl ⟨[], by rw [lookupSession_add_ne _ _ _ _ _ _ hid]; simpa using hl⟩

theorem historyExtendsOrGone_add_add (s : Store) (sid r c r2 c2 : String)
    (t t2 : Nat) :
    historyExtendsOrGone s
      (add_to_session_history (add_to_session_history s sid r c t) sid r2 c2 t2) := by
  intro id h hl
  by_cases hid : id = sid
  · subst hid
    refine Or.inl ⟨[⟨r, c, t⟩, ⟨r2, c2, t2⟩], ?_⟩
    rw [lookupSession_add_self, lookupSession_add_self, hl]
    simp
  · refine Or.inl ⟨[], ?_⟩
    rw [lookupSession_add_ne _ _ _ _ _ _ hid, lookupSession_add_ne _ _ _ _ _ _ hid]
    simpa using hl

theorem historyExtendsOrGone_setNew (s : Store) (nid : String)
    (hnew : lookupSession s nid = none) :
    historyExtendsOrGone s (setSession s nid []) := by
  intro id h hl
  by_cases hid : id = nid
  · subst hid; rw [hl] at hnew; exact Option.noConfusion hnew
  · exact Or.inl ⟨[], by rw [lookupSession_setSession_ne _ _ _ _ hid]; simpa using hl⟩

/-- C6: every store-touching operation — session resolution, history
append, session deletion, and the relay in both its outcomes — leaves each
existing history in place as a prefix of its new value (appending only at
the end) or removes the session as a whole; none reorders, edits, or drops
individual messages. (`get_session` and `list_sessions` take the store as
a plain value and return no store, so they cannot modify it.) -/
theorem C6_append_only (store : Store) (req : Option String)
    (freshId sid role content message err : String) (ts tUser tAsst : Nat)
    (chunks : List Chunk) (hnd : keysNodup store) :
    historyExtendsOrGone store (get_or_create_session_id store req freshId).2 ∧
    historyExtendsOrGone store (add_to_session_history store sid role content ts) ∧
    historyExtendsOrGone store (delete_session store sid).2 ∧
    historyExtendsOrGone store
      (stream_agent_response store message sid (.success chunks) tUser tAsst).2 ∧
    historyExtendsOrGone store
      (stream_agent_response store message sid (.failure chunks err) tUser tAsst).2 := by
  refine ⟨?_, historyExtendsOrGone_add store sid role content ts, ?_, ?_,
    historyExtendsOrGone_add store sid "user" message tUser⟩
  · unfold get_or_create_session_id
    by_cases h1 : pyTruthy req && hasSession store (req.getD "")
    · simp only [h1, if_true]
      exact historyExtendsOrGone_refl store
    · simp only [h1, Bool.false_eq_true, if_false]
      by_cases h2 : hasSession store (if pyTruthy req then req.getD "" else freshId)
      · simp only [h2, if_true]
        exact historyExtendsOrGone_refl store
      · simp only [h2, Bool.false_eq_true, if_false]
        refine historyExtendsOrGone_setNew store _ ?_
        unfold hasSession at h2
        exact Option.not_isSome_iff_eq_none.mp (by simpa using h2)
  · unfold delete_session
    by_cases hs : hasSession store sid
    · simp only [hs, if_true]
      intro id h hl
      by_cases hid : id = sid
      · subst hid
        exact Or.inr (lookupSession_eraseSession_self store id hnd)
      · exact Or.inl ⟨[], by rw [lookupSession_eraseSession_ne _ _ _ hid]; simpa using hl⟩
    · simp only [hs, Bool.false_eq_true, if_false]
      exact historyExtendsOrGone_refl store
  · show historyExtendsOrGone store
      (if String.join (chunkFragments chunks) = "" then _ else _)
    by_cases hfull : String.join (chunkFragments chunks) = ""
    · rw [if_pos hfull]
      exact historyExtendsOrGone_add store sid "user" message tUser
    · rw [if_neg hfull]
      exact historyExtendsOrGone_add_add store sid "user" message "assistant"
        (String.join (chunkFragments chunks)) tUser tAsst

/-- Witness for C6 on the concrete store `{"a": [user-msg]}`: an append
extends the existing history, and a delete of another session id leaves it
readable unchanged. -/
theorem C6_append_only_witness :
    ((∃ tail, lookupSession
        (add_to_session_history [("a", [⟨"user", "x", 0⟩])] "a" "assistant" "y" 1) "a"
          = some ([⟨"user", "x", 0⟩] ++ tail)) ∨
      lookupSession
        (add_to_session_history [("a", [⟨"user", "x", 0⟩])] "a" "assistant" "y" 1) "a"
          = none) ∧
    ((∃ tail, lookupSession
        (delete_session [("a", [⟨"user", "x", 0⟩])] "b").2 "a"
          = some ([⟨"user", "x", 0⟩] ++ tail)) ∨
      lookupSession (delete_session [("a", [⟨"user", "x", 0⟩])] "b").2 "a" = none) := by
  have h := C6_append_only [("a", [⟨"user", "x", 0⟩])] none "f" "a" "assistant" "y"
    "m" "e" 1 1 2 [] (by decide)
  have hb := C6_append_only [("a", [⟨"user", "x", 0⟩])] none "f" "b" "assistant" "y"
    "m" "e" 1 1 2 [] (by decide)
  exact ⟨h.2.1 "a" [⟨"user", "x", 0⟩] rfl, hb.2.2.1 "a" [⟨"user", "x", 0⟩] rfl⟩

/-- C8: deleting an unknown session id returns HTTP 404 and leaves the
store unchanged; deleting a known id succeeds, a subsequent get on that id
returns HTTP 404, and every other session is unaffected. -/
theorem C8_delete_session (store : Store) (sid : String) (hnd : keysNodup store) :
    (hasSession store sid = false →
       delete_session store sid = (.error 404, store)) ∧
    (hasSession store sid = true →
       (delete_session store sid).1
         = .ok ("Session " ++ sid ++ " deleted successfully") ∧
       get_session (delete_session store sid).2 sid = .error 404 ∧
       ∀ other, other ≠ sid →
         lookupSession (delete_session store sid).2 other
           = lookupSession store other) := by
  constructor
  · intro hs
    unfold delete_session
    rw [hs]
    rfl
  · intro hs
    unfold delete_session
    rw [hs]
    refine ⟨rfl, ?_, ?_⟩
    · show get_session (eraseSession store sid) sid = .error 404
      unfold get_session
      rw [lookupSession_eraseSession_self store sid hnd]
    · intro other hne
      exact lookupSession_eraseSession_ne store sid other hne

/-- Witness for C8 on `{"a": [], "b": []}`: deleting the unknown "c" is a
404 no-op; deleting "a" succeeds, makes `get "a"` a 404, and leaves "b"
unchanged. -/
theorem C8_delete_session_witness :
    delete_session [("a", []), ("b", [])] "c" = (.error 404, [("a", []), ("b", [])]) ∧
    (delete_session [("a", []), ("b", [])] "a").1
      = .ok ("Session " ++ "a" ++ " deleted successfully") ∧
    get_session (delete_session [("a", []), ("b", [])] "a").2 "a" = .error 404 ∧
    lookupSession (delete_session [("a", []), ("b", [])] "a").2 "b"
      = lookupSession [("a", []), ("b", [])] "b" := by
  have h1 := (C8_delete_session [("a", []), ("b", [])] "c" (by decide)).1 (by decide)
  have h2 := (C8_delete_session [("a", []), ("b", [])] "a" (by decide)).2 (by decide)
  exact ⟨h1, h2.1, h2.2.1, h2.2.2 "b" (by decide)⟩

/-- C9: when `POST /chat` resolves a previously unknown (or absent) session
id and agent construction then fails, the response is HTTP 500 but the
newly created empty session stays in the store. -/
theorem C9_chat_error_keeps_session (store : Store) (req : Option String)
    (freshId message : String) (outcome : RunOutcome) (tUser tAsst : Nat)
    (hnew : lookupSession store (get_or_create_session_id store req freshId).1 = none) :
    chat_stream store message req freshId true true outcome tUser tAsst
      = .httpError 500 (get_or_create_session_id store req freshId).2 ∧
    lookupSession (get_or_create_session_id store req freshId).2
        (get_or_create_session_id store req freshId).1 = some [] := by
  refine ⟨rfl, ?_⟩
  unfold get_or_create_session_id at hnew ⊢
  by_cases h1 : pyTruthy req && hasSession store (req.getD "")
  · rw [if_pos h1] at hnew
    have hx : lookupSession store (req.getD "") = none := hnew
    have hand := (Bool.and_eq_true _ _).mp h1
    unfold hasSession at hand
    rw [hx] at hand
    simp at hand
  · rw [if_neg h1] at hnew ⊢
    by_cases h2 : hasSession store (if pyTruthy req then req.getD "" else freshId)
    · simp only [h2, if_true] at hnew
      have hx : lookupSession store
          (if pyTruthy req then req.getD "" else freshId) = none := hnew
      unfold hasSession at h2
      rw [hx] at h2
      simp at h2
    · simp only [h2, Bool.false_eq_true, if_false]
      exact lookupSession_setSession_self ..

/-- Witness for C9: on the empty store with no client id, the failed chat
still leaves the fresh empty session in place. -/
theorem C9_chat_error_keeps_session_witness :
    chat_stream [] "hi" none "f" true true (.success []) 0 0
      = .httpError 500 (get_or_create_session_id [] none "f").2 ∧
    lookupSession (get_or_create_session_id [] none "f").2
        (get_or_create_session_id [] none "f").1 = some [] :=
  C9_chat_error_keeps_session [] none "f" "hi" (.success []) 0 0 rfl

/-- C10: an empty-string client session id is treated exactly like an
absent one — the call behaves identically to the no-id call, returns the
non-empty fresh id (never the empty string), never creates a session keyed
by the empty string, and maps the fresh id to an empty history. -/
theorem C10_empty_id_like_absent (store : Store) (freshId : String)
    (hf : freshId ≠ "") :
    get_or_create_session_id store (some "") freshId
      = get_or_create_session_id store none freshId ∧
    (get_or_create_session_id store (some "") freshId).1 = freshId ∧
    (get_or_create_session_id store (some "") freshId).1 ≠ "" ∧
    hasSession (get_or_create_session_id store (some "") freshId).2 ""
      = hasSession store "" ∧
    (hasSession store freshId = false →
       lookupSession (get_or_create_session_id store (some "") freshId).2 freshId
         = some []) := by
  have hfst : (get_or_create_session_id store (some "") freshId).1 = freshId := by
    unfold get_or_create_session_id
    simp only [pyTruthy, bne_self_eq_false, Bool.false_and, Bool.false_eq_true,
      if_false]
    by_cases h2 : hasSession store freshId
    · simp [h2]
    · simp [h2]
  refine ⟨rfl, hfst, by rw [hfst]; exact hf, ?_, ?_⟩
  · unfold get_or_create_session_id
    simp only [pyTruthy, bne_self_eq_false, Bool.false_and, Bool.false_eq_true,
      if_false]
    by_cases h2 : hasSession store freshId
    · simp [h2]
    · simp only [h2, Bool.false_eq_true, if_false]
      unfold hasSession
      rw [lookupSession_setSession_ne _ _ _ _ (Ne.symm hf)]
  · intro h2
    unfold get_or_create_session_id
    simp only [pyTruthy, bne_self_eq_false, Bool.false_and, Bool.false_eq_true,
      if_false, h2]
    exact lookupSession_setSession_self ..

/-- Witness for C10 on `{"a": []}` with fresh id "f": the empty-string call
equals the no-id call, returns "f", creates no empty-string session, and
maps "f" to an empty history. -/
theorem C10_empty_id_like_absent_witness :
    get_or_create_session_id [("a", [])] (some "") "f"
      = get_or_create_session_id [("a", [])] none "f" ∧
    (get_or_create_session_id [("a", [])] (some "") "f").1 = "f" ∧
    hasSession (get_or_create_session_id [("a", [])] (some "") "f").2 ""
      = hasSession [("a", [])] "" ∧
    lookupSession (get_or_create_session_id [("a", [])] (some "") "f").2 "f"
      = some [] := by
  have h := C10_empty_id_like_absent [("a", [])] "f" (by decide)
  exact ⟨h.1, h.2.1, h.2.2.2.1, h.2.2.2.2 (by decide)⟩

end AgnoChat
